import Mathlib

/-!
Verification of the File_Transfer repository's location-routing and
transfer-dispatch logic (src/file_transfer.py and src/handler.py), as a
shallow embedding in Lean.  Python strings are Lean `String`s; Python
exceptions are modelled with `Except PyErr`; external collaborators
(KMS decryption, the S3 client, the SMB client, EC2 provisioning) are
oracle parameters.
-/

/-- Python exception kinds raised by the embedded code. -/
inductive PyErr where
  | exception
  | nameError
  | indexError
deriving DecidableEq

/-- The two location kinds returned by `identify_location_type`
('s3' and 'on-prem' in the source). -/
inductive LocType where
  | s3
  | onPrem
deriving DecidableEq, Fintype

/-- Values returned by the transfer executors: Python booleans, or the
`Exception` class object itself returned as a value (not raised) by the
stub executors. -/
inductive PyRet where
  | boolVal (b : Bool)
  | excClass
deriving DecidableEq

/-- Bool-valued prefix test on char lists (used to model Python's
substring and split operations). -/
def isPrefixOfCL : List Char → List Char → Bool
  | [], _ => true
  | _ :: _, [] => false
  | a :: as, b :: bs => a == b && isPrefixOfCL as bs

/-- Bool-valued substring occurrence test on char lists: models Python's
`pat in s` (for the empty pattern it agrees with Python: `"" in s` is True,
and `containsSub [] [] = [].isEmpty = true`). -/
def containsSub (pat : List Char) : List Char → Bool
  | [] => pat.isEmpty
  | a :: rest => isPrefixOfCL pat (a :: rest) || containsSub pat rest

/-- Python's `pat in s` on strings. -/
def strContains (s pat : String) : Bool :=
  containsSub pat.data s.data

/-- Split a char list on a single separator character; matches Python's
`str.split(sep)` for a one-character `sep`: `"" -> [""]`,
`"a/" -> ["a", ""]`, adjacent separators give empty parts. -/
def splitOnChar (c : Char) : List Char → List (List Char)
  | [] => [[]]
  | a :: rest =>
    if a == c then [] :: splitOnChar c rest
    else
      match splitOnChar c rest with
      | [] => [[a]]
      | h :: t => (a :: h) :: t

/-- Python's `s.split(c)` for a one-character separator. -/
def pySplitChar (s : String) (c : Char) : List String :=
  (splitOnChar c s.data).map String.mk

/-- Split on a multi-character separator, fuelled for structural
termination (each step consumes at least one character, so fuel
`length + 1` is always enough); matches Python's `str.split(sep)`
(leftmost, non-overlapping). -/
def splitOnSubFuel (sep : List Char) : Nat → List Char → List (List Char)
  | _, [] => [[]]
  | 0, s => [s]
  | fuel + 1, a :: rest =>
    if isPrefixOfCL sep (a :: rest) then
      [] :: splitOnSubFuel sep fuel (List.drop sep.length (a :: rest))
    else
      match splitOnSubFuel sep fuel rest with
      | [] => [[a]]
      | h :: t => (a :: h) :: t

/-- Python's `s.split(sep)` for a non-empty multi-character separator. -/
def pySplitSub (s sep : String) : List String :=
  (splitOnSubFuel sep.data (s.data.length + 1) s.data).map String.mk

/-- The regex character class `[0-5]`. -/
def isDigit05 (c : Char) : Bool :=
  c == '0' || c == '1' || c == '2' || c == '3' || c == '4' || c == '5'

/-- The regex character class `[0-4]`. -/
def isDigit04 (c : Char) : Bool :=
  c == '0' || c == '1' || c == '2' || c == '3' || c == '4'

/-- One octet of the source's IPv4 regex: the alternation
`25[0-5]|2[0-4][0-9]|[01]?[0-9][0-9]?` (file_transfer.py line 57).
A 1-character match is any digit; a 2-character match is any two digits
(`[01]?` skipped gives `[0-9][0-9]?`, which subsumes `[01][0-9]`); a
3-character match is `25[0-5]`, `2[0-4][0-9]` or `[01][0-9][0-9]`.
Leading zeros are accepted, exactly as the regex accepts them. -/
def matchesOctet (s : String) : Bool :=
  match s.data with
  | [a] => a.isDigit
  | [a, b] => a.isDigit && b.isDigit
  | [a, b, c] =>
    (a == '2' && b == '5' && isDigit05 c) ||
    (a == '2' && isDigit04 b && c.isDigit) ||
    ((a == '0' || a == '1') && b.isDigit && c.isDigit)
  | _ => false

/-- The bare pattern `((25[0-5]|2[0-4][0-9]|[01]?[0-9][0-9]?)\.){3}(25[0-5]|...)`
matched against an entire string.  Because no octet alternative can
contain a dot, the pattern spans a whole string exactly when splitting it
on '.' yields four parts each matching one octet alternative. -/
def isIPv4Core (s : String) : Bool :=
  match pySplitChar s '.' with
  | [a, b, c, d] => matchesOctet a && matchesOctet b && matchesOctet c && matchesOctet d
  | _ => false

/-- file_transfer.py line 57: `re.search('^(...\.){3}(...)$', rootURL)`.
Without re.MULTILINE, `^` matches only at the start of the string, and
`$` matches at the end of the string or just before a newline that ends
the string; since no octet alternative can contain a newline, the search
succeeds exactly when the pattern spans the whole string, or the whole
string minus a single trailing newline (so `"1.2.3.4\n"` is accepted,
`"1.2.3.4\n\n"` is not — checked against CPython's re). -/
def isIPv4 (s : String) : Bool :=
  isIPv4Core s ||
  (match s.data.getLast? with
   | some c => c == '\n' && isIPv4Core (String.mk s.data.dropLast)
   | none => false)

/-- file_transfer.py, `identify_location_type` (lines 36-66).
If `'s3://' in directory` return 's3'; else take the first '/'-separated
segment, and if it matches the IPv4 regex, return 'on-prem' when
`directory.split("/")[1]` exists (the bare `except:` around that index
re-raises a plain `Exception` when it does not); otherwise raise
`Exception`.  The `[]` split case is unreachable (a Python split never
returns an empty list) and is mapped to an index error. -/
def identify_location_type (directory : String) : Except PyErr LocType :=
  if strContains directory "s3://" then .ok .s3
  else
    match pySplitChar directory '/' with
    | [] => .error .indexError
    | rootURL :: rest =>
      if isIPv4 rootURL then
        match rest with
        | [] => .error .exception
        | _ :: _ => .ok .onPrem
      else .error .exception

deriving instance DecidableEq for Except

/-- The four transfer strategies move_files dispatches to (the four
executor functions of file_transfer.py). -/
inductive TransferStrategy where
  | s3_to_s3
  | s3_to_on_prem
  | on_prem_to_on_prem
  | on_prem_to_s3
deriving DecidableEq

/-- The routing of file_transfer.py, `move_files` (lines 237-244): the
if/elif chain over the classified source and target kinds, viewed as a
selection function.  `none` models the chain falling through with no
branch taken (there is no `else`); the theorems show this never happens
for kinds in the 2x2 matrix. -/
def select_strategy (source_type target_type : LocType) : Option TransferStrategy :=
  if source_type = LocType.s3 ∧ target_type = LocType.s3 then
    some TransferStrategy.s3_to_s3
  else if source_type = LocType.s3 ∧ target_type = LocType.onPrem then
    some TransferStrategy.s3_to_on_prem
  else if source_type = LocType.onPrem ∧ target_type = LocType.onPrem then
    some TransferStrategy.on_prem_to_on_prem
  else if source_type = LocType.onPrem ∧ target_type = LocType.s3 then
    some TransferStrategy.on_prem_to_s3
  else none

/-- Outcomes of the external collaborator calls made by
`_move_on_prem_to_s3` (file_transfer.py lines 123-202): the KMS
decryption of the two environment ciphertexts, the result of
`conn.connect(server_ip, 445)`, and the outcomes of
`conn.retrieveFile(...)` and `s3.upload_fileobj(...)`. -/
structure SMBWorld where
  decrypt : Except PyErr (String × String)
  connect : Bool
  retrieve : Except PyErr Unit
  upload : Except PyErr Unit

/-- Outcome of the `s3.mv(...)` call made by `_move_s3_to_s3`
(file_transfer.py line 96; with the module-level `s3 = boto3.client('s3')`
of line 16 this attribute lookup itself fails at runtime, which the
surrounding `except Exception` also catches, so the oracle covers both). -/
structure S3World where
  s3mv : Except PyErr Unit

/-- All collaborator outcomes `move_files` can consult. -/
structure World where
  s3 : S3World
  smb : SMBWorld

/-- file_transfer.py, `_move_s3_to_s3` (lines 69-100): split both
locations on "s3://" (index 1, IndexError when the marker is absent),
attempt the move, re-raise a plain `Exception` on any failure, return
True on success. -/
def _move_s3_to_s3 (w : S3World) (source_location target_location : String) :
    Except PyErr PyRet :=
  match (pySplitSub source_location "s3://").get? 1 with
  | none => .error .indexError
  | some _ =>
    match (pySplitSub target_location "s3://").get? 1 with
    | none => .error .indexError
    | some _ =>
      match w.s3mv with
      | .error _ => .error .exception
      | .ok _ => .ok (.boolVal true)

/-- file_transfer.py, `_move_on_prem_to_on_prem` (lines 103-120): logs a
debug line and returns the `Exception` class itself as a value — it never
performs a transfer and never raises. -/
def _move_on_prem_to_on_prem (_source_location _target_location : String) :
    Except PyErr PyRet :=
  .ok .excClass

/-- file_transfer.py, `_move_s3_to_on_prem` (lines 207-225): logs a debug
line and returns the `Exception` class itself as a value — it never
performs a transfer and never raises. -/
def _move_s3_to_on_prem (_source_location _target_location : String) :
    Except PyErr PyRet :=
  .ok .excClass

/-- file_transfer.py, `_move_on_prem_to_s3` (lines 123-202), step by step:
decrypt the credentials (line 141, may raise); deconstruct the source with
`split("/", 2)` indices 0, 1 and 2 (lines 149-152; index 2 raises
IndexError when the source has fewer than three segments) and the target
with `split("s3://")[1]` (line 155); the `boto3.client('s3')` constructor
(line 159) does not fail; `conn.connect` returning False returns False
(line 175-177); on True, the `retrieveFile` and `upload_fileobj` failures
are caught by bare `except` blocks that only log (lines 183-194), after
which the function logs "Completed transfer" and returns True (line 199). -/
def _move_on_prem_to_s3 (w : SMBWorld) (source_location target_location : String) :
    Except PyErr PyRet :=
  match w.decrypt with
  | .error e => .error e
  | .ok (_username, _password) =>
    let parts := pySplitChar source_location '/'
    match parts.get? 1 with
    | none => .error .indexError
    | some _rootFolder =>
      if parts.length < 3 then .error .indexError
      else
        match (pySplitSub target_location "s3://").get? 1 with
        | none => .error .indexError
        | some _s3_bucket =>
          if w.connect = false then .ok (.boolVal false)
          else
            let _retrieval := w.retrieve
            let _upload := w.upload
            .ok (.boolVal true)

/-- file_transfer.py, `move_files` (lines 228-244): classify both
locations (either classification failure propagates), run the if/elif
chain, call the selected executor and DISCARD its result (no branch
returns or inspects the executor's value), and return None.  When no
branch matches — impossible for kinds in the 2x2 matrix — the chain falls
through and returns None as well. -/
def move_files (w : World) (source_location target_location : String) :
    Except PyErr Unit :=
  match identify_location_type source_location with
  | .error e => .error e
  | .ok source_type =>
    match identify_location_type target_location with
    | .error e => .error e
    | .ok target_type =>
      if source_type = LocType.s3 ∧ target_type = LocType.s3 then
        (_move_s3_to_s3 w.s3 source_location target_location).map fun _ => ()
      else if source_type = LocType.s3 ∧ target_type = LocType.onPrem then
        (_move_s3_to_on_prem source_location target_location).map fun _ => ()
      else if source_type = LocType.onPrem ∧ target_type = LocType.onPrem then
        (_move_on_prem_to_on_prem source_location target_location).map fun _ => ()
      else if source_type = LocType.onPrem ∧ target_type = LocType.s3 then
        (_move_on_prem_to_s3 w.smb source_location target_location).map fun _ => ()
      else .ok ()

/-- The event handed to the lambda entry point (handler.py lines 144-147). -/
structure LambdaEvent where
  source_location : String
  target_location : String

/-- The environment variable read by `lambda_handler` before branching
(handler.py line 158).  The EC2-related variables of `create_EC2` are
folded into the provisioning oracle, which is never consulted because
bootstrap generation raises first. -/
structure HandlerEnv where
  PYTHON_HANDLER : String

/-- The API-Gateway style response envelope built at handler.py
lines 169-172. -/
structure LambdaResponse where
  statusCode : Nat
  body : String
deriving DecidableEq

/-- handler.py, `create_s3_onprem_bootstrap_script` (lines 25-73),
translated as it stands: its first statement (line 44) evaluates
`decrypt_KMS_credentials[...]`, but the name `decrypt_KMS_credentials` is
not bound in handler.py's module namespace (the module only does
`import file_transfer`, and the function lives at
`file_transfer.decrypt_KMS_credentials`; it is also subscripted with
square brackets instead of being called).  Python evaluates the name
before the subscript and the environment lookups, so every call raises
NameError before the f-string template is ever built, and the function
never returns the script string its docstring promises. -/
def create_s3_onprem_bootstrap_script
    (_source_location _target_location _python_handler : String) :
    Except PyErr String :=
  .error .nameError

/-- handler.py, `create_EC2` (lines 76-130): build the bootstrap script,
hand it as UserData to `ec2.run_instances` (the oracle `run_instances`,
which also covers the environment lookups of lines 102-105 and the
`['Instances'][0]['InstanceId']` extraction of line 127), and return the
instance id. -/
def create_EC2 (run_instances : String → Except PyErr String)
    (source_location target_location python_handler : String) :
    Except PyErr String :=
  match create_s3_onprem_bootstrap_script source_location target_location python_handler with
  | .error e => .error e
  | .ok userdata =>
    match run_instances userdata with
    | .error e => .error e
    | .ok ec2_id => .ok ec2_id

/-- handler.py, `lambda_handler` (lines 133-174): classify the target,
then the source (either failure propagates); read PYTHON_HANDLER; start
with the empty message; if both kinds are 's3', append the "not required"
message; elif either kind is 'on-prem', call `create_EC2` (any exception
propagates — there is no try/except) and embed the returned id in the
message; finally wrap the message in a statusCode-200 envelope. -/
def lambda_handler (run_instances : String → Except PyErr String)
    (env : HandlerEnv) (event : LambdaEvent) : Except PyErr LambdaResponse :=
  match identify_location_type event.target_location with
  | .error e => .error e
  | .ok target_type =>
    match identify_location_type event.source_location with
    | .error e => .error e
    | .ok source_type =>
      let python_handler := env.PYTHON_HANDLER
      let message : Except PyErr String :=
        if source_type = LocType.s3 ∧ target_type = LocType.s3 then
          .ok "AWS transfer only - not required."
        else if source_type = LocType.onPrem ∨ target_type = LocType.onPrem then
          match create_EC2 run_instances event.source_location
              event.target_location python_handler with
          | .error e => .error e
          | .ok ec2_id => .ok ("EC2 file transfer spun up. instance id is " ++ ec2_id)
        else .ok ""
      match message with
      | .error e => .error e
      | .ok msg => .ok { statusCode := 200, body := "File transfer started. " ++ msg }

/-- A concrete provisioning oracle for closed statements: rejects every
launch request. -/
def dummyProvision : String → Except PyErr String :=
  fun _ => .error .exception

/-- A concrete provisioning oracle for closed statements: accepts every
launch request with a fixed instance id. -/
def okProvision : String → Except PyErr String :=
  fun _ => .ok "i-0abc123"

/-- A concrete handler environment for closed statements. -/
def testEnv : HandlerEnv := { PYTHON_HANDLER := "main.py" }

/-- A concrete collaborator world for closed statements: every external
call succeeds. -/
def okWorld : World :=
  { s3 := { s3mv := .ok () }
    smb := { decrypt := .ok ("alice", "hunter2"), connect := true,
             retrieve := .ok (), upload := .ok () } }

/-- Claim C1, counterexample: `"1.2.3.4/s3://bkt"` has a syntactically
valid dotted-decimal IPv4 first segment and further path segments, yet
`identify_location_type` classifies it as S3, not OnPrem, because the
`'s3://' in directory` test runs first. -/
theorem C1_counterexample_marker_wins :
    pySplitChar "1.2.3.4/s3://bkt" '/' = ["1.2.3.4", "s3:", "", "bkt"] ∧
    isIPv4 "1.2.3.4" = true ∧
    identify_location_type "1.2.3.4/s3://bkt" ≠ .ok LocType.onPrem ∧
    identify_location_type "1.2.3.4/s3://bkt" = .ok LocType.s3 := by decide

/-- Claim C1 (amended): for every location string that does NOT contain
the object-store marker 's3://', if the first '/'-separated segment
matches the IPv4 regex then classification returns OnPrem when at least
one further path segment exists, and raises when the string has no
further path segment. -/
theorem C1_amended_ipv4_routing (directory rootURL : String) (rest : List String)
    (hmk : strContains directory "s3://" = false)
    (hsplit : pySplitChar directory '/' = rootURL :: rest)
    (hip : isIPv4 rootURL = true) :
    (rest ≠ [] → identify_location_type directory = .ok LocType.onPrem) ∧
    (rest = [] → identify_location_type directory = .error PyErr.exception) := by
  constructor
  · intro hne
    cases rest with
    | nil => exact absurd rfl hne
    | cons a t => simp [identify_location_type, hmk, hsplit, hip]
  · intro he
    subst he
    simp [identify_location_type, hmk, hsplit, hip]

/-- Witness for C1 at the spec's own scenario input. -/
theorem C1_amended_ipv4_routing_witness :
    (strContains "10.21.13.12/Matillion_Output/hello.csv" "s3://" = false ∧
     pySplitChar "10.21.13.12/Matillion_Output/hello.csv" '/' =
       ["10.21.13.12", "Matillion_Output", "hello.csv"] ∧
     isIPv4 "10.21.13.12" = true) ∧
    identify_location_type "10.21.13.12/Matillion_Output/hello.csv" = .ok LocType.onPrem :=
  ⟨⟨by decide, by decide, by decide⟩,
    (C1_amended_ipv4_routing "10.21.13.12/Matillion_Output/hello.csv" "10.21.13.12"
      ["Matillion_Output", "hello.csv"] (by decide) (by decide) (by decide)).1 (by decide)⟩

/-- Claim C2: every location string containing the object-store marker
's3://' anywhere classifies as S3, regardless of the rest of its shape. -/
theorem C2_marker_classifies_s3 (directory : String)
    (h : strContains directory "s3://" = true) :
    identify_location_type directory = .ok LocType.s3 := by
  simp [identify_location_type, h]

/-- Witness for C2 at the spec's own scenario input. -/
theorem C2_marker_classifies_s3_witness :
    strContains "s3://bucket-test/hello.csv" "s3://" = true ∧
    identify_location_type "s3://bucket-test/hello.csv" = .ok LocType.s3 :=
  ⟨by decide, C2_marker_classifies_s3 "s3://bucket-test/hello.csv" (by decide)⟩

/-- Claim C3, counterexample: `"1.2.3.4\n/x"` contains no 's3://' and its
first '/'-separated segment `"1.2.3.4\n"` is not a syntactically valid
dotted-decimal IPv4 address (it carries a trailing newline), so the claim
requires classification to fail — yet `identify_location_type` returns
OnPrem, because `re.search`'s `$` also matches just before a string-final
newline. -/
theorem C3_counterexample_trailing_newline :
    strContains "1.2.3.4\n/x" "s3://" = false ∧
    pySplitChar "1.2.3.4\n/x" '/' = ["1.2.3.4\n", "x"] ∧
    isIPv4Core "1.2.3.4\n" = false ∧
    identify_location_type "1.2.3.4\n/x" = .ok LocType.onPrem := by decide

/-- Claim C3 (amended): every location string that neither contains
's3://' nor has a first '/'-separated segment accepted by the code's
IPv4 regex as `re.search` applies it (strict dotted-decimal octets with
leading zeros allowed, plus at most one trailing newline) followed by a
further path segment makes `identify_location_type` raise a plain
Exception — it never returns a kind. -/
theorem C3_unrecognized_raises (directory rootURL : String) (rest : List String)
    (hmk : strContains directory "s3://" = false)
    (hsplit : pySplitChar directory '/' = rootURL :: rest)
    (hnot : ¬(isIPv4 rootURL = true ∧ rest ≠ [])) :
    identify_location_type directory = .error PyErr.exception := by
  cases hip : isIPv4 rootURL with
  | false => simp [identify_location_type, hmk, hsplit, hip]
  | true =>
    have hrest : rest = [] := by
      by_contra hne
      exact hnot ⟨hip, hne⟩
    subst hrest
    simp [identify_location_type, hmk, hsplit, hip]

/-- Witness for C3 at a share-like path with no IPv4 root. -/
theorem C3_unrecognized_raises_witness :
    (strContains "bucket-test/hello.csv" "s3://" = false ∧
     pySplitChar "bucket-test/hello.csv" '/' = ["bucket-test", "hello.csv"] ∧
     ¬(isIPv4 "bucket-test" = true ∧ (["hello.csv"] : List String) ≠ [])) ∧
    identify_location_type "bucket-test/hello.csv" = .error PyErr.exception :=
  ⟨⟨by decide, by decide, by decide⟩,
    C3_unrecognized_raises "bucket-test/hello.csv" "bucket-test" ["hello.csv"]
      (by decide) (by decide) (by decide)⟩

/-- Claim C4: the routing of `move_files` over the 2x2 matrix of location
kinds is total (every combination selects a strategy, none falls through
to the raising/undefined path), maps each combination to the explicit
strategy of the source's table, and distinct combinations select distinct
strategies. -/
theorem C4_strategy_total_distinct :
    select_strategy LocType.s3 LocType.s3 = some TransferStrategy.s3_to_s3 ∧
    select_strategy LocType.s3 LocType.onPrem = some TransferStrategy.s3_to_on_prem ∧
    select_strategy LocType.onPrem LocType.s3 = some TransferStrategy.on_prem_to_s3 ∧
    select_strategy LocType.onPrem LocType.onPrem = some TransferStrategy.on_prem_to_on_prem ∧
    (∀ s t : LocType, (select_strategy s t).isSome = true) ∧
    (∀ s t s' t' : LocType,
      select_strategy s t = select_strategy s' t' → s = s' ∧ t = t') := by
  decide

/-- Claim C5, evaluation: for a both-S3 event the dispatcher returns the
200 "not required" envelope without consulting the provisioning oracle;
but for the repository's own standalone test event (an S3 source and an
on-prem target, handler.py lines 177-183) the dispatcher raises NameError
out of bootstrap generation instead of returning a response that embeds
an instance id — whatever the provisioning oracle and environment are. -/
theorem C5_dispatch_eval (run_instances : String → Except PyErr String)
    (env : HandlerEnv) :
    lambda_handler run_instances env
      { source_location := "s3://bucket-test",
        target_location := "10.10.10.100/Matillion_Output" } = .error PyErr.nameError ∧
    lambda_handler run_instances env
      { source_location := "s3://bucket-a/x.csv",
        target_location := "s3://bucket-b/y.csv" } =
      .ok { statusCode := 200,
            body := "File transfer started. AWS transfer only - not required." } := by
  constructor <;> rfl

/-- Claim C6, counterexample: an event whose two locations both classify
(S3 source, on-prem target) on which dispatch does NOT return a
statusCode-200 envelope: the orchestration step raises and the exception
propagates out of `lambda_handler`, even under a provisioning oracle that
would accept the launch. -/
theorem C6_counterexample_no_envelope :
    identify_location_type "s3://bucket-test" = .ok LocType.s3 ∧
    identify_location_type "10.10.10.100/Matillion_Output" = .ok LocType.onPrem ∧
    lambda_handler okProvision testEnv
      { source_location := "s3://bucket-test",
        target_location := "10.10.10.100/Matillion_Output" } = .error PyErr.nameError := by
  decide

/-- Claim C6 (amended): dispatch returns the 200 envelope only on paths
that complete without orchestration errors: a both-S3 event gets the 200
"not required" envelope, while an event with an OnPrem leg propagates the
orchestration step's exception (in the current code, always a NameError
from bootstrap generation) and produces no envelope at all. -/
theorem C6_amended_envelope (run_instances : String → Except PyErr String)
    (env : HandlerEnv) (event : LambdaEvent) (s t : LocType)
    (ht : identify_location_type event.target_location = .ok t)
    (hs : identify_location_type event.source_location = .ok s) :
    (s = LocType.s3 ∧ t = LocType.s3 →
      lambda_handler run_instances env event =
        .ok { statusCode := 200,
              body := "File transfer started. AWS transfer only - not required." }) ∧
    ((s = LocType.onPrem ∨ t = LocType.onPrem) →
      lambda_handler run_instances env event = .error PyErr.nameError) := by
  constructor
  · rintro ⟨rfl, rfl⟩
    simp [lambda_handler, ht, hs]
  · intro h
    cases s <;> cases t <;>
      simp_all [lambda_handler, ht, hs, create_EC2, create_s3_onprem_bootstrap_script]

/-- Witness for C6 (amended) at a both-S3 event. -/
theorem C6_amended_envelope_witness :
    (identify_location_type "s3://bucket-b/y.csv" = .ok LocType.s3 ∧
     identify_location_type "s3://bucket-a/x.csv" = .ok LocType.s3) ∧
    lambda_handler okProvision testEnv
      { source_location := "s3://bucket-a/x.csv", target_location := "s3://bucket-b/y.csv" } =
      .ok { statusCode := 200,
            body := "File transfer started. AWS transfer only - not required." } :=
  ⟨⟨by decide, by decide⟩,
    (C6_amended_envelope okProvision testEnv
      { source_location := "s3://bucket-a/x.csv", target_location := "s3://bucket-b/y.csv" }
      LocType.s3 LocType.s3 (by decide) (by decide)).1 ⟨rfl, rfl⟩⟩

/-- Claim C7, evaluation: with the SMB connection succeeding, the
executor `_move_on_prem_to_s3` returns True (reports success) whatever
the outcomes of the file retrieval and the S3 upload are — in particular
when either of them fails — because both `except` blocks only log. -/
theorem C7_swallowed_failure_eval (retrieval upload : Except PyErr Unit) :
    _move_on_prem_to_s3
      { decrypt := .ok ("alice", "hunter2"), connect := true,
        retrieve := retrieval, upload := upload }
      "10.21.13.12/Matillion_Output/hello.csv" "s3://bucket-test" =
      .ok (PyRet.boolVal true) := by
  rfl

/-- Claim C8, evaluation: bootstrap generation never returns a script —
it raises NameError on every call (handler.py line 44 subscripts the
unbound name `decrypt_KMS_credentials`), so no script exists to re-parse
the target path and handler name out of. -/
theorem C8_bootstrap_never_returns :
    create_s3_onprem_bootstrap_script "s3://bucket-test" "10.10.10.100/Matillion_Output"
      "main.py" = .error PyErr.nameError := rfl

/-- Claim C9, evaluation: for every input tuple, bootstrap generation
raises NameError and produces no script string at all — the name
`decrypt_KMS_credentials` at handler.py line 44 is unbound and is
evaluated before the environment-ciphertext lookups and before any
substitution into the template — so there is no produced script whose
credential content could be inspected. -/
theorem C9_no_script_produced (source_location target_location python_handler : String) :
    create_s3_onprem_bootstrap_script source_location target_location python_handler =
      .error PyErr.nameError := rfl

/-- Claim C10: for kind pairs (S3, OnPrem) and (OnPrem, OnPrem),
`move_files` completes without raising and returns None, although the
selected executors perform no transfer: they return the `Exception`
class as a value, and `move_files` discards every executor's result, so
the caller observes neither success nor failure. -/
theorem C10_stub_legs_silent (w : World) (source_location target_location : String)
    (h : (identify_location_type source_location = .ok LocType.s3 ∧
          identify_location_type target_location = .ok LocType.onPrem) ∨
         (identify_location_type source_location = .ok LocType.onPrem ∧
          identify_location_type target_location = .ok LocType.onPrem)) :
    move_files w source_location target_location = .ok () ∧
    _move_s3_to_on_prem source_location target_location = .ok PyRet.excClass ∧
    _move_on_prem_to_on_prem source_location target_location = .ok PyRet.excClass := by
  refine ⟨?_, rfl, rfl⟩
  rcases h with ⟨hs, ht⟩ | ⟨hs, ht⟩ <;>
    simp [move_files, hs, ht, _move_s3_to_on_prem, _move_on_prem_to_on_prem, Except.map]

/-- Witness for C10 at an S3-to-on-prem pair. -/
theorem C10_stub_legs_silent_witness :
    ((identify_location_type "s3://bucket-test/hello.csv" = .ok LocType.s3 ∧
      identify_location_type "10.21.13.12/Matillion_Output/hello.csv" = .ok LocType.onPrem) ∨
     (identify_location_type "s3://bucket-test/hello.csv" = .ok LocType.onPrem ∧
      identify_location_type "10.21.13.12/Matillion_Output/hello.csv" = .ok LocType.onPrem)) ∧
    (move_files okWorld "s3://bucket-test/hello.csv" "10.21.13.12/Matillion_Output/hello.csv" =
        .ok () ∧
     _move_s3_to_on_prem "s3://bucket-test/hello.csv" "10.21.13.12/Matillion_Output/hello.csv" =
        .ok PyRet.excClass ∧
     _move_on_prem_to_on_prem "s3://bucket-test/hello.csv"
        "10.21.13.12/Matillion_Output/hello.csv" = .ok PyRet.excClass) :=
  ⟨Or.inl ⟨by decide, by decide⟩,
    C10_stub_legs_silent okWorld "s3://bucket-test/hello.csv"
      "10.21.13.12/Matillion_Output/hello.csv" (Or.inl ⟨by decide, by decide⟩)⟩
